import Mathlib

/-!
Verification development for the image-gen single-page client.

The source is a React component (src/src/App.js) plus a service module
(src/unnamed/part_000, the openrouter/pinning wrappers).  We embed the
code shallowly:

* React state becomes an explicit AppState record; each handler becomes a
  pure function from the current state and an environment (the outcomes of
  the remote calls, which are external collaborators) to the new state
  together with a trace of observable effects (notifications shown,
  object-URL revocations, and every outbound remote request).
* The notification store with its two nested timers (the 5000 ms
  auto-expiry scheduled by addNotification and the 300 ms exit-animation
  delay inside removeNotification) is modelled as a store carrying the
  list plus a queue of pending timer actions.
* JavaScript string helpers used by the code (trim, startsWith, slice)
  are given executable character-list definitions.

Notification ids in the source are Date.now() + Math.random(); the
environment supplies them (field nid), indexed by call site.
-/

namespace ImageGen

/-- Notification kinds: the type field of a notification ('info',
'success' or 'error' in the source). -/
inductive NType
  | info
  | success
  | error
deriving DecidableEq, Repr

/-- A notification record as built by addNotification in App.js:
id, message, type, timestamp, removing flag. -/
structure Notification where
  id : Nat
  message : String
  ty : NType
  timestamp : Nat
  removing : Bool
deriving DecidableEq, Repr

/-- The functional updater passed to setNotifications by addNotification:
drop every existing entry with the same message, then append the new
notification at the end. -/
def addNotificationUpdate (l : List Notification) (message : String)
    (ty : NType) (id t : Nat) : List Notification :=
  l.filter (fun n => n.message != message) ++ [⟨id, message, ty, t, false⟩]

/-- Phase one of removeNotification: mark the entry with the given id as
removing (for the exit animation). -/
def markRemoving (l : List Notification) (id : Nat) : List Notification :=
  l.map (fun n => if n.id = id then { n with removing := true } else n)

/-- The pending timer callbacks of the notification store: the 5000 ms
auto-expiry scheduled by addNotification (which calls removeNotification),
and the 300 ms delayed physical removal scheduled inside
removeNotification. -/
inductive TimerAct
  | autoRemove (id : Nat)
  | purge (id : Nat)
deriving DecidableEq, Repr

/-- The notification store: the displayed list plus the queue of pending
timers (absolute firing time paired with the action). -/
structure NStore where
  list : List Notification
  timers : List (Nat × TimerAct)
deriving DecidableEq, Repr

/-- addNotification on the store: update the list (dedup by message,
append at end) and schedule removeNotification for this id 5000 ms from
now. -/
def addNotification (st : NStore) (message : String) (ty : NType)
    (id t : Nat) : NStore :=
  { list := addNotificationUpdate st.list message ty id t,
    timers := st.timers ++ [(t + 5000, TimerAct.autoRemove id)] }

/-- removeNotification on the store: immediately mark the entry as
removing, and schedule the physical removal 300 ms from now.  It never
cancels any pending timer. -/
def removeNotificationT (st : NStore) (id t : Nat) : NStore :=
  { list := markRemoving st.list id,
    timers := st.timers ++ [(t + 300, TimerAct.purge id)] }

/-- Firing a pending timer: the auto-expiry callback just calls
removeNotification; the purge callback filters the id out of the list. -/
def fireTimer (st : NStore) (a : TimerAct) (t : Nat) : NStore :=
  match a with
  | .autoRemove id => removeNotificationT st id t
  | .purge id => { st with list := st.list.filter (fun n => n.id != id) }

/-- A run of addNotification calls against a bare list, starting from a
given fresh-id counter (the k-th call uses id and timestamp k).  Used to
state the length bound of the dedup policy. -/
def runNotifies (l : List Notification) : List (String × NType) → Nat → List Notification
  | [], _ => l
  | (m, ty) :: rest, k => runNotifies (addNotificationUpdate l m ty k k) rest (k + 1)

/-- The number of duplicate-message coalescions along a run of
addNotification calls: a call coalesces when the list already holds an
entry with the same message at the time of the call. -/
def coalRun (l : List Notification) : List (String × NType) → Nat → Nat
  | [], _ => 0
  | (m, ty) :: rest, k =>
      (if l.any (fun n => n.message == m) then 1 else 0) +
        coalRun (addNotificationUpdate l m ty k k) rest (k + 1)

/-! ## JavaScript string helpers -/

/-- Model of JavaScript String.prototype.trim: strip leading and trailing
whitespace. -/
def jsTrim (s : String) : String :=
  ⟨((s.data.dropWhile Char.isWhitespace).reverse.dropWhile Char.isWhitespace).reverse⟩

/-- Model of JavaScript String.prototype.startsWith. -/
def strStartsWith (s p : String) : Bool :=
  p.data.isPrefixOf s.data

/-- Model of JavaScript slice(0, n) on an ASCII string. -/
def strTake (s : String) (n : Nat) : String :=
  ⟨s.data.take n⟩

/-- Model of JavaScript slice(-n) on an ASCII string (clamped to the whole
string when it is shorter than n, as in JavaScript). -/
def strTakeRight (s : String) (n : Nat) : String :=
  ⟨s.data.drop (s.data.length - n)⟩

/-- Executable substring test on character lists: does the second list
occur contiguously inside the first argument order (sub inside l)? -/
def listContainsSub (sub : List Char) : List Char → Bool
  | [] => sub.isEmpty
  | c :: t => sub.isPrefixOf (c :: t) || listContainsSub sub t

/-- Executable substring test on strings: strContains s sub is true when
sub occurs contiguously inside s. -/
def strContains (s sub : String) : Bool :=
  listContainsSub sub.data s.data

/-! ## The service module (src/unnamed/part_000) -/

/-- An upstream HTTP response as the service code observes it: ok flag,
numeric status, and body text. -/
structure HttpResp where
  ok : Bool
  status : Nat
  body : String
deriving DecidableEq, Repr

/-- The error message generateImage throws on a non-ok response:
OpenRouter failed (status): body. -/
def openRouterFailMsg (resp : HttpResp) : String :=
  "OpenRouter failed (" ++ Nat.repr resp.status ++ "): " ++ resp.body

/-- generateImage (the OpenRouter chat path): on a non-ok response it
throws an error carrying the upstream status and body text; on success it
delegates to the placeholder path (whose payload no claim depends on, so
it is collapsed to a unit value here). -/
def generateImage (resp : HttpResp) : Except String Unit :=
  if resp.ok then .ok () else .error (openRouterFailMsg resp)

/-- generateImageWithPollinations: the inner code throws the fixed string
when the response is not ok, and the surrounding catch wraps every error
message with the prefix, so a non-ok response produces the fixed message
below, carrying neither the status nor the body. -/
def generateImageWithPollinations (resp : HttpResp) : Except String Unit :=
  if resp.ok then .ok ()
  else .error ("Pollinations generation failed: " ++ "Pollinations API not accessible")

/-! ## App state, effects, environments -/

/-- The result envelope of a successful generateImageWithPollinations
call as consumed by handleGenerate: the display object URL and the raw
blob (bytes) for the IPFS upload. -/
structure ImgRes where
  display_url : String
  blob : List Nat
deriving DecidableEq, Repr

/-- The NFT metadata document built by handleGenerate. -/
structure Metadata where
  name : String
  description : String
  image : String
  attributes : List (String × String)
deriving DecidableEq, Repr

/-- The metadata document as constructed in handleGenerate, from the
prompt, the pinned image CID, and the creation timestamp
(new Date().toISOString()). -/
def buildMetadata (prompt imageCID createdAt : String) : Metadata :=
  { name := "AI Generated NFT",
    description := "Generated with Pollinations AI: \"" ++ prompt ++ "\"",
    image := "ipfs://" ++ imageCID,
    attributes := [("Model", "Pollinations AI"), ("Created", createdAt), ("Prompt", prompt)] }

/-- Observable effects of a flow: notifications shown, object-URL
revocations, and every outbound remote request (image generation, the two
pinning uploads, the contract mint call, and the wallet provider
requests). -/
inductive Effect
  | notif (message : String) (ty : NType)
  | revokeURL (url : String)
  | callGenerate (prompt : String)
  | callUploadImage (blob : List Nat) (filename : String)
  | callUploadMetadata (md : Metadata)
  | callMint (addr : String) (uri : String)
  | callRequestAccounts
  | callSwitchChain (chainIdHex : String)
  | callAddChain (chainIdHex : String)
deriving DecidableEq, Repr

/-- True exactly on wallet_addEthereumChain requests. -/
def isAddChainReq : Effect → Bool
  | .callAddChain _ => true
  | _ => false

/-- Number of wallet_addEthereumChain requests in a trace. -/
def countAddChain (tr : List Effect) : Nat :=
  (tr.filter isAddChainReq).length

/-- The React state of the App component. -/
structure AppState where
  prompt : String
  imagePreview : Option String
  tokenURI : Option String
  txHash : Option String
  loading : Bool
  walletAddress : Option String
  notifications : List Notification
deriving DecidableEq, Repr

/-- Environment of a handleGenerate run: the outcomes of the three remote
calls, the creation timestamp string, the clock, and the
environment-chosen notification ids per call site. -/
structure GenEnv where
  imageResult : Except String ImgRes
  uploadImageResult : Except String String
  uploadMetaResult : Except String String
  now : String
  time : Nat
  nid : Nat → Nat

/-- handleGenerate: validate the prompt; show the progress notification;
revoke a previous blob object URL; clear preview, tokenURI and txHash;
call the image service; on success optionally show the preview, pin the
bytes, build and pin the metadata document, and store the metadata URI;
any failure is caught once, reported, and the busy flag cleared. -/
def handleGenerate (s : AppState) (env : GenEnv) : AppState × List Effect :=
  if jsTrim s.prompt = "" then
    ({ s with notifications :=
        addNotificationUpdate s.notifications "Please enter a prompt!" .error (env.nid 0) env.time },
     [.notif "Please enter a prompt!" .error])
  else
    let n1 := addNotificationUpdate s.notifications
      "Generating image with Pollinations AI..." .info (env.nid 0) env.time
    let revokes : List Effect :=
      match s.imagePreview with
      | some u => if strStartsWith u "blob:" then [.revokeURL u] else []
      | none => []
    let tr0 : List Effect :=
      .notif "Generating image with Pollinations AI..." .info :: revokes ++ [.callGenerate s.prompt]
    match env.imageResult with
    | .error e =>
        ({ s with
            imagePreview := none
            tokenURI := none
            txHash := none
            loading := false
            notifications := addNotificationUpdate n1 ("Error: " ++ e) .error (env.nid 1) env.time },
         tr0 ++ [.notif ("Error: " ++ e) .error])
    | .ok r =>
        let p1 : Option String := if r.display_url ≠ "" then some r.display_url else none
        let n2 := if r.display_url ≠ "" then
            addNotificationUpdate n1 "Image generated successfully!" .success (env.nid 1) env.time
          else n1
        let tr1 := tr0 ++ (if r.display_url ≠ "" then
            [Effect.notif "Image generated successfully!" .success] else [])
        let n3 := addNotificationUpdate n2 "Uploading to IPFS..." .info (env.nid 2) env.time
        let tr2 := tr1 ++ [.notif "Uploading to IPFS..." .info,
                           .callUploadImage r.blob "generated-ai-art.png"]
        match env.uploadImageResult with
        | .error e =>
            ({ s with
                imagePreview := p1
                tokenURI := none
                txHash := none
                loading := false
                notifications := addNotificationUpdate n3 ("Error: " ++ e) .error (env.nid 3) env.time },
             tr2 ++ [.notif ("Error: " ++ e) .error])
        | .ok c1 =>
            let md := buildMetadata s.prompt c1 env.now
            let tr3 := tr2 ++ [.callUploadMetadata md]
            match env.uploadMetaResult with
            | .error e =>
                ({ s with
                    imagePreview := p1
                    tokenURI := none
                    txHash := none
                    loading := false
                    notifications := addNotificationUpdate n3 ("Error: " ++ e) .error (env.nid 3) env.time },
                 tr3 ++ [.notif ("Error: " ++ e) .error])
            | .ok c2 =>
                ({ s with
                    imagePreview := p1
                    tokenURI := some ("ipfs://" ++ c2)
                    txHash := none
                    loading := false
                    notifications := addNotificationUpdate n3 "Ready to mint NFT!" .success (env.nid 3) env.time },
                 tr3 ++ [.notif "Ready to mint NFT!" .success])

/-- The transaction handle returned by the contract mint call. -/
structure TxHandle where
  hash : String
deriving DecidableEq, Repr

/-- Environment of a handleMint run: outcome of obtaining the contract
handle, of the safeMint call, and of the confirmation wait, plus clock
and notification ids. -/
structure MintEnv where
  contractResult : Except String Unit
  mintResult : Except String TxHandle
  waitResult : Except String Unit
  time : Nat
  nid : Nat → Nat

/-- handleMint: no-op when tokenURI is null; error notification and no-op
when the wallet address is null; otherwise obtain the contract, call
safeMint, record the transaction hash immediately, await confirmation;
any exception is caught once and reported, and the busy flag is always
cleared at the end. -/
def handleMint (s : AppState) (env : MintEnv) : AppState × List Effect :=
  match s.tokenURI with
  | none => (s, [])
  | some uri =>
    match s.walletAddress with
    | none =>
        ({ s with notifications :=
            addNotificationUpdate s.notifications "Connect wallet first!" .error (env.nid 0) env.time },
         [.notif "Connect wallet first!" .error])
    | some addr =>
      let n1 := addNotificationUpdate s.notifications "Minting NFT..." .info (env.nid 0) env.time
      let tr0 : List Effect := [.notif "Minting NFT..." .info]
      match env.contractResult with
      | .error e =>
          ({ s with
              loading := false
              notifications := addNotificationUpdate n1 ("Minting failed: " ++ e) .error (env.nid 1) env.time },
           tr0 ++ [.notif ("Minting failed: " ++ e) .error])
      | .ok _ =>
        let tr1 := tr0 ++ [Effect.callMint addr uri]
        match env.mintResult with
        | .error e =>
            ({ s with
                loading := false
                notifications := addNotificationUpdate n1 ("Minting failed: " ++ e) .error (env.nid 1) env.time },
             tr1 ++ [.notif ("Minting failed: " ++ e) .error])
        | .ok tx =>
          let n2 := addNotificationUpdate n1
            "Transaction sent! Waiting for confirmation..." .info (env.nid 1) env.time
          let tr2 := tr1 ++ [Effect.notif "Transaction sent! Waiting for confirmation..." .info]
          match env.waitResult with
          | .error e =>
              ({ s with
                  txHash := some tx.hash
                  loading := false
                  notifications := addNotificationUpdate n2 ("Minting failed: " ++ e) .error (env.nid 2) env.time },
               tr2 ++ [.notif ("Minting failed: " ++ e) .error])
          | .ok _ =>
              ({ s with
                  txHash := some tx.hash
                  loading := false
                  notifications := addNotificationUpdate n2 "🎉 NFT Minted Successfully!" .success (env.nid 2) env.time },
               tr2 ++ [.notif "🎉 NFT Minted Successfully!" .success])

/-- The error thrown by a failed wallet_switchEthereumChain request:
a provider error code plus message. -/
structure SwitchErr where
  code : Int
  message : String
deriving DecidableEq, Repr

/-- Environment of a connectWallet run: presence of the injected
provider, outcomes of the account request, the network query, the chain
switch, the chain add and the signer-address query; chainAfter is the
wallet's active chain when the flow finishes.  The client issues switch
and add requests but never re-queries the chain afterwards, so chainAfter
is wallet-determined and unconstrained by the code under verification. -/
structure WalletEnv where
  hasProvider : Bool
  accountsResult : Except String Unit
  chainId : Nat
  switchResult : Except SwitchErr Unit
  addChainResult : Except String Unit
  addressResult : Except String String
  chainAfter : Nat
  time : Nat
  nid : Nat → Nat

/-- The tail of connectWallet after the chain handling: query the signer
address, store it, and show the completion notification; a failure falls
into the single outer catch.  The index k selects the notification id for
the call site. -/
def connectFinish (s : AppState) (env : WalletEnv) (l : List Notification)
    (tr : List Effect) (k : Nat) : AppState × List Effect :=
  match env.addressResult with
  | .error e =>
      ({ s with notifications :=
          addNotificationUpdate l ("Connection failed: " ++ e) .error (env.nid k) env.time },
       tr ++ [.notif ("Connection failed: " ++ e) .error])
  | .ok addr =>
      let msg := "Wallet connected: " ++ strTake addr 6 ++ "..." ++ strTakeRight addr 4
      ({ s with
          walletAddress := some addr
          notifications := addNotificationUpdate l msg .success (env.nid k) env.time },
       tr ++ [.notif msg .success])

/-- connectWallet: missing provider is an error notification and return;
otherwise request accounts, query the network; when the chain differs
from Sepolia (11155111) request a switch, and when that fails with code
4902 request a chain add (any other switch error is swallowed by the
inner catch); finally read the signer address and store it.  Any error
escaping to the outer catch is reported as a connection failure. -/
def connectWallet (s : AppState) (env : WalletEnv) : AppState × List Effect :=
  if env.hasProvider then
    let n1 := addNotificationUpdate s.notifications "Connecting to wallet..." .info (env.nid 0) env.time
    let tr0 : List Effect := [.notif "Connecting to wallet..." .info, .callRequestAccounts]
    match env.accountsResult with
    | .error e =>
        ({ s with notifications :=
            addNotificationUpdate n1 ("Connection failed: " ++ e) .error (env.nid 1) env.time },
         tr0 ++ [.notif ("Connection failed: " ++ e) .error])
    | .ok _ =>
      if env.chainId = 11155111 then connectFinish s env n1 tr0 1
      else
        let n2 := addNotificationUpdate n1 "Switching to Sepolia network..." .info (env.nid 1) env.time
        let tr1 := tr0 ++ [Effect.notif "Switching to Sepolia network..." .info,
                           Effect.callSwitchChain "0xaa36a7"]
        match env.switchResult with
        | .ok _ => connectFinish s env n2 tr1 2
        | .error se =>
          if se.code = 4902 then
            let tr2 := tr1 ++ [Effect.callAddChain "0xaa36a7"]
            match env.addChainResult with
            | .error e =>
                ({ s with notifications :=
                    addNotificationUpdate n2 ("Connection failed: " ++ e) .error (env.nid 2) env.time },
                 tr2 ++ [.notif ("Connection failed: " ++ e) .error])
            | .ok _ => connectFinish s env n2 tr2 2
          else connectFinish s env n2 tr1 2
  else
    ({ s with notifications :=
        addNotificationUpdate s.notifications "Please install MetaMask!" .error (env.nid 0) env.time },
     [.notif "Please install MetaMask!" .error])

/-! ## Effect counters -/

/-- True exactly on contract mint calls. -/
def isMintReq : Effect → Bool
  | .callMint _ _ => true
  | _ => false

/-- Number of contract mint calls in a trace. -/
def countMint (tr : List Effect) : Nat :=
  (tr.filter isMintReq).length

/-- True exactly on error notifications. -/
def isErrorNotif : Effect → Bool
  | .notif _ .error => true
  | _ => false

/-- Number of error notifications in a trace. -/
def countErrorNotif (tr : List Effect) : Nat :=
  (tr.filter isErrorNotif).length

/-- True exactly on pinning requests (image upload or metadata upload). -/
def isUploadReq : Effect → Bool
  | .callUploadImage _ _ => true
  | .callUploadMetadata _ => true
  | _ => false

/-- Number of pinning requests in a trace. -/
def countUpload (tr : List Effect) : Nat :=
  (tr.filter isUploadReq).length

/-! ## Concrete inputs used by the witness and counterexample theorems -/

/-- A state holding a stale transaction hash and a connected wallet but no
metadata URI. -/
def c2State : AppState :=
  { prompt := "x", imagePreview := none, tokenURI := none, txHash := some "0xdead",
    loading := false, walletAddress := some "0xabc", notifications := [] }

/-- A mint environment in which every remote step would succeed. -/
def c2Env : MintEnv :=
  { contractResult := .ok (), mintResult := .ok ⟨"0xfeed"⟩, waitResult := .ok (),
    time := 0, nid := fun k => k }

/-- A state holding a metadata URI but no connected wallet. -/
def c3State : AppState :=
  { prompt := "x", imagePreview := none, tokenURI := some "ipfs://Qmeta",
    txHash := some "0xdead", loading := false, walletAddress := none, notifications := [] }

/-- A mint environment in which every remote step would succeed. -/
def c3Env : MintEnv :=
  { contractResult := .ok (), mintResult := .ok ⟨"0xfeed"⟩, waitResult := .ok (),
    time := 0, nid := fun k => k }

/-- A state with a non-empty prompt, a previously displayed blob object
URL, and a stale metadata URI and transaction hash. -/
def c4State : AppState :=
  { prompt := "cat", imagePreview := some "blob:old", tokenURI := some "ipfs://stale",
    txHash := some "0xstale", loading := false, walletAddress := none, notifications := [] }

/-- A generate environment whose image-acquisition call fails. -/
def c4Env : GenEnv :=
  { imageResult := .error "Pollinations generation failed: boom",
    uploadImageResult := .ok "QimgUnused", uploadMetaResult := .ok "QmetaUnused",
    now := "2025-01-01T00:00:00.000Z", time := 0, nid := fun k => k }

/-- The fresh state of the spec's worked example: prompt a red fox. -/
def c1State : AppState :=
  { prompt := "a red fox", imagePreview := none, tokenURI := none, txHash := none,
    loading := false, walletAddress := none, notifications := [] }

/-- The generate environment of the spec's worked example: the image call
succeeds, the image pins as Qimg and the metadata as Qmeta. -/
def c1Env : GenEnv :=
  { imageResult := .ok { display_url := "blob:obj1", blob := [137, 80, 78, 71] },
    uploadImageResult := .ok "Qimg", uploadMetaResult := .ok "Qmeta",
    now := "2025-01-01T00:00:00.000Z", time := 0, nid := fun k => k }

/-- A non-ok upstream response with a recognizable status and body. -/
def c6Resp : HttpResp :=
  { ok := false, status := 500, body := "upstream oops" }

/-- A second non-ok upstream response, used by the amended-claim witness. -/
def c6AmResp : HttpResp :=
  { ok := false, status := 404, body := "bad gateway" }

/-- A fresh disconnected state. -/
def c7State : AppState :=
  { prompt := "", imagePreview := none, tokenURI := none, txHash := none,
    loading := false, walletAddress := none, notifications := [] }

/-- A connect environment on the wrong chain whose switch request fails
with the unknown-chain code 4902, whose add request is acknowledged, and
whose wallet nevertheless remains on chain 1 when the flow finishes (the
client never re-queries the chain, so this outcome is reachable). -/
def c7Env : WalletEnv :=
  { hasProvider := true, accountsResult := .ok (), chainId := 1,
    switchResult := .error { code := 4902, message := "Unrecognized chain ID" },
    addChainResult := .ok (), addressResult := .ok "0x1234567890abcdef",
    chainAfter := 1, time := 0, nid := fun k => k }

/-- A state holding a metadata URI and a connected wallet, ready to mint. -/
def c10State : AppState :=
  { prompt := "p", imagePreview := some "blob:img", tokenURI := some "ipfs://Qmeta",
    txHash := none, loading := false, walletAddress := some "0xabc", notifications := [] }

/-- A mint environment in which the transaction is submitted but the
confirmation wait fails. -/
def c10Env : MintEnv :=
  { contractResult := .ok (), mintResult := .ok ⟨"0xtxhash"⟩,
    waitResult := .error "timeout", time := 0, nid := fun k => k }

/-- A store holding one notification with id 3 and no pending timers. -/
def c9Store : NStore :=
  { list := [⟨3, "hello", .info, 0, false⟩], timers := [] }

/-! ## Helper lemmas: substring occurrence -/

theorem isPrefixOf_self_append (p r : List Char) : p.isPrefixOf (p ++ r) = true := by
  induction p with
  | nil => cases r <;> simp [List.isPrefixOf]
  | cons c cs ih => simp [List.isPrefixOf, ih]

theorem listContainsSub_cons (sub l : List Char) (c : Char)
    (h : listContainsSub sub l = true) : listContainsSub sub (c :: l) = true := by
  simp [listContainsSub, h]

theorem listContainsSub_append_left (pre sub l : List Char)
    (h : listContainsSub sub l = true) : listContainsSub sub (pre ++ l) = true := by
  induction pre with
  | nil => simpa using h
  | cons a t ih => simpa using listContainsSub_cons _ _ a ih

theorem listContainsSub_self_append (sub r : List Char) :
    listContainsSub sub (sub ++ r) = true := by
  cases sub with
  | nil =>
    cases r with
    | nil => rfl
    | cons c t => simp [listContainsSub, List.isPrefixOf]
  | cons c cs =>
    have h := isPrefixOf_self_append (c :: cs) r
    simp only [List.cons_append] at h
    simp [listContainsSub, h]

theorem string_data_append (a b : String) : (a ++ b).data = a.data ++ b.data := by
  cases a; cases b; rfl

theorem strContains_mid (a b c : String) : strContains (a ++ b ++ c) b = true := by
  have hd : (a ++ b ++ c).data = a.data ++ (b.data ++ c.data) := by
    rw [string_data_append, string_data_append, List.append_assoc]
  unfold strContains
  rw [hd]
  exact listContainsSub_append_left _ _ _ (listContainsSub_self_append _ _)

theorem strContains_right (a b : String) : strContains (a ++ b) b = true := by
  unfold strContains
  rw [string_data_append]
  refine listContainsSub_append_left _ _ _ ?_
  simpa using listContainsSub_self_append b.data []

/-! ## Helper lemmas: the notification store -/

theorem addNotificationUpdate_length (l : List Notification) (m : String) (ty : NType)
    (id t : Nat) (h : (l.map (fun n => n.message)).Nodup) :
    (addNotificationUpdate l m ty id t).length +
      (if l.any (fun n => n.message == m) then 1 else 0) = l.length + 1 := by
  induction l with
  | nil => simp [addNotificationUpdate]
  | cons a rest ih =>
    rw [List.map_cons, List.nodup_cons] at h
    have ih2 := ih h.2
    by_cases hm : a.message = m
    · have hnone : ∀ n ∈ rest, (n.message != m) = true := by
        intro n hn
        have hne : n.message ≠ m := by
          intro hc
          apply h.1
          rw [hm, ← hc]
          exact List.mem_map_of_mem _ hn
        simpa using hne
      have hfil : rest.filter (fun n => n.message != m) = rest :=
        List.filter_eq_self.mpr hnone
      simp [addNotificationUpdate, List.filter_cons, hm, hfil, List.any_cons]
    · have hbeq : (a.message == m) = false := by simpa using hm
      have hpa : (a.message != m) = true := by simpa using hm
      simp only [addNotificationUpdate, List.filter_cons, hpa, if_pos, List.any_cons, hbeq,
        Bool.false_or, List.cons_append, List.length_cons, List.length_append] at ih2 ⊢
      by_cases ha : rest.any (fun n => n.message == m) <;>
        simp only [ha, if_true, if_false] at ih2 ⊢ <;> omega

theorem addNotificationUpdate_nodup (l : List Notification) (m : String) (ty : NType)
    (id t : Nat) (h : (l.map (fun n => n.message)).Nodup) :
    ((addNotificationUpdate l m ty id t).map (fun n => n.message)).Nodup := by
  unfold addNotificationUpdate
  rw [List.map_append]
  apply List.Nodup.append
  · exact List.Nodup.sublist (List.Sublist.map _ (List.filter_sublist l)) h
  · simp
  · intro x hx hx2
    simp only [List.map_cons, List.map_nil, List.mem_singleton] at hx2
    obtain ⟨n, hn, rfl⟩ := List.mem_map.mp hx
    have hne := (List.mem_filter.mp hn).2
    rw [hx2] at hne
    simp at hne

theorem runNotifies_length_aux (calls : List (String × NType)) :
    ∀ (l : List Notification) (k : Nat), (l.map (fun n => n.message)).Nodup →
      (runNotifies l calls k).length + coalRun l calls k = l.length + calls.length := by
  induction calls with
  | nil => intro l k _; simp [runNotifies, coalRun]
  | cons c rest ih =>
    intro l k h
    obtain ⟨m, ty⟩ := c
    have h2 := addNotificationUpdate_nodup l m ty k k h
    have h3 := ih (addNotificationUpdate l m ty k k) (k + 1) h2
    have h4 := addNotificationUpdate_length l m ty k k h
    simp only [runNotifies, coalRun, List.length_cons]
    by_cases ha : l.any (fun n => n.message == m) <;>
      simp only [ha, if_true, if_false] at h4 ⊢ <;> omega

theorem markRemoving_all (l : List Notification) (id : Nat) :
    ((markRemoving l id).all (fun n => !(n.id == id) || n.removing)) = true := by
  unfold markRemoving
  rw [List.all_eq_true]
  intro n hn
  obtain ⟨x, _, rfl⟩ := List.mem_map.mp hn
  by_cases h : x.id = id <;> simp [h]

theorem filter_ne_id_all (l : List Notification) (id : Nat) :
    ((l.filter (fun n => n.id != id)).all (fun n => n.id != id)) = true := by
  rw [List.all_eq_true]
  intro n hn
  exact (List.mem_filter.mp hn).2

theorem markRemoving_absent (l : List Notification) (id : Nat)
    (h : l.all (fun n => n.id != id) = true) : markRemoving l id = l := by
  induction l with
  | nil => rfl
  | cons a t ih =>
    rw [List.all_cons, Bool.and_eq_true] at h
    have ha : ¬ a.id = id := by simpa using h.1
    simp only [markRemoving, List.map_cons, if_neg ha]
    have := ih h.2
    simp only [markRemoving] at this
    rw [this]

theorem filter_ne_id_absent (l : List Notification) (id : Nat)
    (h : l.all (fun n => n.id != id) = true) :
    l.filter (fun n => n.id != id) = l := by
  rw [List.all_eq_true] at h
  exact List.filter_eq_self.mpr h

theorem string_append_assoc (a b c : String) : a ++ b ++ c = a ++ (b ++ c) := by
  apply String.ext
  rw [string_data_append, string_data_append, string_data_append, string_data_append,
    List.append_assoc]

/-! ## Claim theorems -/

/-- C2: when the stored metadata URI is null, invoking the mint flow is a
no-op: no contract call, no notification, and the whole state (busy flag,
transaction hash, notification list included) is returned unchanged. -/
theorem mint_noop_when_no_tokenURI (s : AppState) (env : MintEnv)
    (h : s.tokenURI = none) : handleMint s env = (s, []) := by
  unfold handleMint
  rw [h]

/-- Witness for C2 at a concrete state with a stale transaction hash. -/
theorem mint_noop_when_no_tokenURI_witness :
    c2State.tokenURI = none ∧ handleMint c2State c2Env = (c2State, []) :=
  ⟨rfl, mint_noop_when_no_tokenURI c2State c2Env rfl⟩

/-- C3: when the metadata URI is present but the wallet address is null,
the mint flow adds exactly one error notification (dedup-appended at the
end of the list), performs no contract call, and leaves the transaction
hash and the metadata URI unchanged. -/
theorem mint_error_when_no_wallet (s : AppState) (env : MintEnv) (uri : String)
    (h1 : s.tokenURI = some uri) (h2 : s.walletAddress = none) :
    handleMint s env =
      ({ s with notifications :=
          addNotificationUpdate s.notifications "Connect wallet first!" .error (env.nid 0) env.time },
       [Effect.notif "Connect wallet first!" NType.error])
    ∧ countMint (handleMint s env).2 = 0
    ∧ countErrorNotif (handleMint s env).2 = 1
    ∧ (handleMint s env).1.txHash = s.txHash
    ∧ (handleMint s env).1.tokenURI = s.tokenURI := by
  have he : handleMint s env =
      ({ s with notifications :=
          addNotificationUpdate s.notifications "Connect wallet first!" .error (env.nid 0) env.time },
       [Effect.notif "Connect wallet first!" NType.error]) := by
    unfold handleMint
    rw [h1, h2]
  refine ⟨he, ?_, ?_, ?_, ?_⟩ <;>
    simp [he, countMint, countErrorNotif, isMintReq, isErrorNotif]

/-- Witness for C3 at a concrete state. -/
theorem mint_error_when_no_wallet_witness :
    c3State.tokenURI = some "ipfs://Qmeta" ∧ c3State.walletAddress = none
    ∧ countMint (handleMint c3State c3Env).2 = 0
    ∧ countErrorNotif (handleMint c3State c3Env).2 = 1 :=
  ⟨rfl, rfl, (mint_error_when_no_wallet c3State c3Env "ipfs://Qmeta" rfl rfl).2.1,
    (mint_error_when_no_wallet c3State c3Env "ipfs://Qmeta" rfl rfl).2.2.1⟩

/-- C10: when the mint transaction is submitted and the confirmation wait
fails, the transaction hash recorded at submission time is retained and
only the busy flag is cleared; the failure is reported once. -/
theorem mint_txhash_retained_on_wait_failure (s : AppState) (env : MintEnv)
    (uri addr : String) (tx : TxHandle) (e : String)
    (h1 : s.tokenURI = some uri) (h2 : s.walletAddress = some addr)
    (h3 : env.contractResult = .ok ()) (h4 : env.mintResult = .ok tx)
    (h5 : env.waitResult = .error e) :
    (handleMint s env).1.txHash = some tx.hash
    ∧ (handleMint s env).1.loading = false
    ∧ (handleMint s env).1.tokenURI = s.tokenURI
    ∧ (handleMint s env).1.walletAddress = s.walletAddress
    ∧ (handleMint s env).1.imagePreview = s.imagePreview
    ∧ Effect.callMint addr uri ∈ (handleMint s env).2
    ∧ Effect.notif ("Minting failed: " ++ e) NType.error ∈ (handleMint s env).2 := by
  obtain ⟨p, ip, tu, tx0, ld, wa, nf⟩ := s
  obtain ⟨cr, mr, wr, tm, nid⟩ := env
  simp only at h1 h2 h3 h4 h5
  subst h1 h2 h3 h4 h5
  refine ⟨rfl, rfl, rfl, rfl, rfl, ?_, ?_⟩ <;> simp [handleMint]

/-- Witness for C10 at a concrete state and environment. -/
theorem mint_txhash_retained_on_wait_failure_witness :
    c10State.tokenURI = some "ipfs://Qmeta" ∧ c10State.walletAddress = some "0xabc"
    ∧ c10Env.waitResult = .error "timeout"
    ∧ (handleMint c10State c10Env).1.txHash = some "0xtxhash"
    ∧ Effect.callMint "0xabc" "ipfs://Qmeta" ∈ (handleMint c10State c10Env).2 :=
  ⟨rfl, rfl, rfl,
    (mint_txhash_retained_on_wait_failure c10State c10Env "ipfs://Qmeta" "0xabc"
      ⟨"0xtxhash"⟩ "timeout" rfl rfl rfl rfl rfl).1,
    (mint_txhash_retained_on_wait_failure c10State c10Env "ipfs://Qmeta" "0xabc"
      ⟨"0xtxhash"⟩ "timeout" rfl rfl rfl rfl rfl).2.2.2.2.2.1⟩

/-- C5: adding a notification drops any existing entry with the same
message text and appends the new one at the end, preserving the order of
the rest; consequently, over any sequence of notify calls starting from
the empty list, the length of the list plus the number of
duplicate-message coalescions equals the number of calls, so the length
never exceeds the number of calls minus the coalescions. -/
theorem notification_dedup_and_length :
    (∀ (l : List Notification) (m : String) (ty : NType) (id t : Nat),
        addNotificationUpdate l m ty id t =
          l.filter (fun n => n.message != m) ++ [⟨id, m, ty, t, false⟩])
    ∧ (∀ calls : List (String × NType),
        (runNotifies [] calls 0).length + coalRun [] calls 0 = calls.length
        ∧ (runNotifies [] calls 0).length ≤ calls.length) := by
  constructor
  · intro l m ty id t
    rfl
  · intro calls
    have h := runNotifies_length_aux calls [] 0 (by simp)
    simp only [List.length_nil, Nat.zero_add] at h
    exact ⟨h, by omega⟩

/-- C8: notify schedules the removal of the created notification 5000 ms
(the fixed 5 second interval) after the call; firing that timer marks
every entry with that id as removing and schedules the physical removal
300 ms later; firing the latter leaves no entry with that id in the list,
so a notification never outlives the timeout window plus the exit delay
once its timers have fired. -/
theorem notify_schedules_timed_removal (st : NStore) (m : String) (ty : NType)
    (id t : Nat) (st2 st3 : NStore) (u v : Nat) :
    (addNotification st m ty id t).timers = st.timers ++ [(t + 5000, TimerAct.autoRemove id)]
    ∧ (fireTimer st2 (TimerAct.autoRemove id) u).timers
        = st2.timers ++ [(u + 300, TimerAct.purge id)]
    ∧ ((fireTimer st2 (TimerAct.autoRemove id) u).list.all
        (fun n => !(n.id == id) || n.removing)) = true
    ∧ ((fireTimer st3 (TimerAct.purge id) v).list.all (fun n => n.id != id)) = true
    ∧ ((fireTimer (fireTimer (addNotification st m ty id t) (TimerAct.autoRemove id) (t + 5000))
          (TimerAct.purge id) (t + 5300)).list.all (fun n => n.id != id)) = true :=
  ⟨rfl, rfl, markRemoving_all _ _, filter_ne_id_all _ _, filter_ne_id_all _ _⟩

/-- C9: dismissing an id that is not in the list leaves the list unchanged
in both phases (the removing mark and the delayed purge are identities),
a dismissal never cancels any pending timer (it only appends its own purge
timer), and the auto-expiry timer firing later on the already-removed id
has no effect on the list. -/
theorem dismiss_absent_id_noop (st : NStore) (id t u : Nat)
    (h : st.list.all (fun n => n.id != id) = true) :
    (removeNotificationT st id t).list = st.list
    ∧ (removeNotificationT st id t).timers = st.timers ++ [(t + 300, TimerAct.purge id)]
    ∧ (fireTimer st (TimerAct.purge id) u).list = st.list
    ∧ (fireTimer st (TimerAct.autoRemove id) u).list = st.list :=
  ⟨markRemoving_absent _ _ h, rfl, filter_ne_id_absent _ _ h, markRemoving_absent _ _ h⟩

/-- Witness for C9: dismissing id 7 in a store holding only id 3. -/
theorem dismiss_absent_id_noop_witness :
    (c9Store.list.all (fun n => n.id != 7)) = true
    ∧ (removeNotificationT c9Store 7 10).list = c9Store.list
    ∧ (fireTimer c9Store (TimerAct.purge 7) 20).list = c9Store.list :=
  ⟨rfl, (dismiss_absent_id_noop c9Store 7 10 20 rfl).1,
    (dismiss_absent_id_noop c9Store 7 10 20 rfl).2.2.1⟩

/-- C1: in a successful generate flow with image CID c1 and metadata CID
c2, the metadata document built embeds the image reference ipfs://c1,
its description embeds the prompt, its attributes carry the model name,
the creation timestamp and the prompt, the flow pins exactly that
document, and the stored mint target is ipfs://c2. -/
theorem generate_metadata_and_mint_target (s : AppState) (env : GenEnv) (r : ImgRes)
    (c1 c2 : String)
    (hp : ¬ jsTrim s.prompt = "")
    (h1 : env.imageResult = .ok r)
    (h2 : env.uploadImageResult = .ok c1)
    (h3 : env.uploadMetaResult = .ok c2) :
    (handleGenerate s env).1.tokenURI = some ("ipfs://" ++ c2)
    ∧ Effect.callUploadMetadata (buildMetadata s.prompt c1 env.now) ∈ (handleGenerate s env).2
    ∧ Effect.callUploadImage r.blob "generated-ai-art.png" ∈ (handleGenerate s env).2
    ∧ (buildMetadata s.prompt c1 env.now).image = "ipfs://" ++ c1
    ∧ strContains (buildMetadata s.prompt c1 env.now).description s.prompt = true
    ∧ (buildMetadata s.prompt c1 env.now).attributes =
        [("Model", "Pollinations AI"), ("Created", env.now), ("Prompt", s.prompt)] := by
  obtain ⟨p, ip, tu, tx0, ld, wa, nf⟩ := s
  obtain ⟨ir, u1, u2, nw, tm, nid⟩ := env
  simp only at hp h1 h2 h3 ⊢
  subst h1 h2 h3
  refine ⟨?_, ?_, ?_, rfl, ?_, rfl⟩
  · rcases ip with - | u <;> by_cases hd : r.display_url = "" <;>
      simp [handleGenerate, hp, hd]
  · rcases ip with - | u <;> by_cases hd : r.display_url = "" <;>
      simp [handleGenerate, hp, hd]
  · rcases ip with - | u <;> by_cases hd : r.display_url = "" <;>
      simp [handleGenerate, hp, hd]
  · simpa [buildMetadata] using
      strContains_mid "Generated with Pollinations AI: \"" p "\""

/-- Witness for C1 at the spec's worked example (prompt a red fox, image
CID Qimg, metadata CID Qmeta). -/
theorem generate_metadata_and_mint_target_witness :
    ¬ jsTrim c1State.prompt = ""
    ∧ c1Env.uploadImageResult = .ok "Qimg"
    ∧ c1Env.uploadMetaResult = .ok "Qmeta"
    ∧ (handleGenerate c1State c1Env).1.tokenURI = some ("ipfs://" ++ "Qmeta")
    ∧ (buildMetadata c1State.prompt "Qimg" c1Env.now).image = "ipfs://" ++ "Qimg"
    ∧ Effect.callUploadMetadata (buildMetadata c1State.prompt "Qimg" c1Env.now)
        ∈ (handleGenerate c1State c1Env).2 :=
  ⟨by decide, rfl, rfl,
    (generate_metadata_and_mint_target c1State c1Env
      { display_url := "blob:obj1", blob := [137, 80, 78, 71] } "Qimg" "Qmeta"
      (by decide) rfl rfl rfl).1,
    (generate_metadata_and_mint_target c1State c1Env
      { display_url := "blob:obj1", blob := [137, 80, 78, 71] } "Qimg" "Qmeta"
      (by decide) rfl rfl rfl).2.2.2.1,
    (generate_metadata_and_mint_target c1State c1Env
      { display_url := "blob:obj1", blob := [137, 80, 78, 71] } "Qimg" "Qmeta"
      (by decide) rfl rfl rfl).2.1⟩

/-- C4: in every generate invocation with a non-empty prompt, the first
three observable effects are the progress notification, the revocation of
the prior blob-derived preview (when one exists) and only then the
image-acquisition call; and when that call fails, no pinning call occurs
and the preview, the metadata URI and the transaction hash are all null
afterwards, so no stale mint target survives. -/
theorem generate_clears_before_image_call (s : AppState) (env : GenEnv) (e : String)
    (hp : ¬ jsTrim s.prompt = "") :
    (∀ u, s.imagePreview = some u → strStartsWith u "blob:" = true →
        (handleGenerate s env).2.take 3 =
          [Effect.notif "Generating image with Pollinations AI..." NType.info,
           Effect.revokeURL u, Effect.callGenerate s.prompt])
    ∧ (env.imageResult = .error e →
        (handleGenerate s env).1.imagePreview = none
        ∧ (handleGenerate s env).1.tokenURI = none
        ∧ (handleGenerate s env).1.txHash = none
        ∧ countUpload (handleGenerate s env).2 = 0
        ∧ (∀ u, s.imagePreview = some u → strStartsWith u "blob:" = true →
            (handleGenerate s env).2 =
              [Effect.notif "Generating image with Pollinations AI..." NType.info,
               Effect.revokeURL u, Effect.callGenerate s.prompt,
               Effect.notif ("Error: " ++ e) NType.error])) := by
  obtain ⟨p, ip, tu, tx0, ld, wa, nf⟩ := s
  obtain ⟨ir, u1, u2, nw, tm, nid⟩ := env
  simp only at hp ⊢
  constructor
  · intro u hu hb
    subst hu
    rcases ir with e' | r
    · simp [handleGenerate, hp, hb]
    · rcases u1 with e1 | cc1 <;> rcases u2 with e2 | cc2 <;>
        by_cases hd : r.display_url = "" <;>
        simp [handleGenerate, hp, hb, hd]
  · intro himg
    subst himg
    refine ⟨?_, ?_, ?_, ?_, ?_⟩
    · rcases ip with - | u <;> simp [handleGenerate, hp]
    · rcases ip with - | u <;> simp [handleGenerate, hp]
    · rcases ip with - | u <;> simp [handleGenerate, hp]
    · rcases ip with - | u
      · simp [handleGenerate, hp, countUpload, isUploadReq]
      · by_cases hb : strStartsWith u "blob:" = true <;>
          simp [handleGenerate, hp, hb, countUpload, isUploadReq]
    · intro u hu hb
      subst hu
      simp [handleGenerate, hp, hb]

/-- Witness for C4 at a state with a stale blob preview, metadata URI and
transaction hash, and a failing image call. -/
theorem generate_clears_before_image_call_witness :
    ¬ jsTrim c4State.prompt = ""
    ∧ c4Env.imageResult = .error "Pollinations generation failed: boom"
    ∧ c4State.imagePreview = some "blob:old"
    ∧ (handleGenerate c4State c4Env).2 =
        [Effect.notif "Generating image with Pollinations AI..." NType.info,
         Effect.revokeURL "blob:old", Effect.callGenerate "cat",
         Effect.notif ("Error: " ++ "Pollinations generation failed: boom") NType.error]
    ∧ (handleGenerate c4State c4Env).1.tokenURI = none
    ∧ (handleGenerate c4State c4Env).1.txHash = none :=
  ⟨by decide, rfl, rfl,
    ((generate_clears_before_image_call c4State c4Env "Pollinations generation failed: boom"
        (by decide)).2 rfl).2.2.2.2 "blob:old" rfl (by decide),
    ((generate_clears_before_image_call c4State c4Env "Pollinations generation failed: boom"
        (by decide)).2 rfl).2.1,
    ((generate_clears_before_image_call c4State c4Env "Pollinations generation failed: boom"
        (by decide)).2 rfl).2.2.1⟩

/-- C6 counterexample: the Pollinations client, the image-acquisition
path actually used by the generate flow, maps a 500 response with body
"upstream oops" to a fixed error message that contains neither the status
code nor the body text, so the claim as stated is false. -/
theorem pollinations_error_lacks_status_counterexample :
    generateImageWithPollinations c6Resp =
      .error "Pollinations generation failed: Pollinations API not accessible"
    ∧ strContains "Pollinations generation failed: Pollinations API not accessible"
        (Nat.repr c6Resp.status) = false
    ∧ strContains "Pollinations generation failed: Pollinations API not accessible"
        c6Resp.body = false := by
  refine ⟨rfl, ?_, ?_⟩ <;> decide

/-- C6 amended: the OpenRouter chat client does fail with an error
carrying the upstream status code and body text on any non-ok response,
while the Pollinations client fails with a fixed message carrying
neither. -/
theorem image_clients_error_contract (resp : HttpResp) (h : resp.ok = false) :
    generateImage resp = .error (openRouterFailMsg resp)
    ∧ strContains (openRouterFailMsg resp) (Nat.repr resp.status) = true
    ∧ strContains (openRouterFailMsg resp) resp.body = true
    ∧ generateImageWithPollinations resp =
        .error ("Pollinations generation failed: " ++ "Pollinations API not accessible") := by
  refine ⟨?_, ?_, ?_, ?_⟩
  · simp [generateImage, h]
  · have hmsg : openRouterFailMsg resp =
        "OpenRouter failed (" ++ Nat.repr resp.status ++ ("): " ++ resp.body) := by
      unfold openRouterFailMsg
      rw [string_append_assoc]
    rw [hmsg]
    exact strContains_mid _ _ _
  · unfold openRouterFailMsg
    exact strContains_right _ _
  · simp [generateImageWithPollinations, h]

/-- Witness for the amended C6 at a concrete 404 response. -/
theorem image_clients_error_contract_witness :
    c6AmResp.ok = false
    ∧ strContains (openRouterFailMsg c6AmResp) (Nat.repr c6AmResp.status) = true
    ∧ strContains (openRouterFailMsg c6AmResp) c6AmResp.body = true :=
  ⟨rfl, (image_clients_error_contract c6AmResp rfl).2.1,
    (image_clients_error_contract c6AmResp rfl).2.2.1⟩

/-- C7 amended: when the active chain differs from Sepolia, the switch
fails with code 4902, the add succeeds and the address query succeeds,
the run issues exactly one chain-add request, placed before the
completion notification (the full effect trace is computed), and stores
the address; the client however never re-checks the chain afterwards, so
matching the expected network is left to the wallet. -/
theorem connect_addchain_once (s : AppState) (env : WalletEnv) (se : SwitchErr) (addr : String)
    (h0 : env.hasProvider = true)
    (h1 : env.accountsResult = .ok ())
    (h2 : ¬ env.chainId = 11155111)
    (h3 : env.switchResult = .error se)
    (h4 : se.code = 4902)
    (h5 : env.addChainResult = .ok ())
    (h6 : env.addressResult = .ok addr) :
    (connectWallet s env).2 =
      [Effect.notif "Connecting to wallet..." NType.info,
       Effect.callRequestAccounts,
       Effect.notif "Switching to Sepolia network..." NType.info,
       Effect.callSwitchChain "0xaa36a7",
       Effect.callAddChain "0xaa36a7",
       Effect.notif ("Wallet connected: " ++ strTake addr 6 ++ "..." ++ strTakeRight addr 4)
         NType.success]
    ∧ countAddChain (connectWallet s env).2 = 1
    ∧ (connectWallet s env).1.walletAddress = some addr := by
  obtain ⟨hpr, ar, ci, sr, ac, adr, ca, tm, nid⟩ := env
  obtain ⟨code, smsg⟩ := se
  simp only at h0 h1 h2 h3 h4 h5 h6
  subst h0 h1 h3 h4 h5 h6
  refine ⟨?_, ?_, ?_⟩ <;>
    simp [connectWallet, connectFinish, h2, countAddChain, isAddChainReq]

/-- Witness for the amended C7 at a concrete environment. -/
theorem connect_addchain_once_witness :
    c7Env.hasProvider = true ∧ ¬ c7Env.chainId = 11155111
    ∧ c7Env.switchResult = .error ⟨4902, "Unrecognized chain ID"⟩
    ∧ countAddChain (connectWallet c7State c7Env).2 = 1
    ∧ (connectWallet c7State c7Env).1.walletAddress = some "0x1234567890abcdef" :=
  ⟨rfl, by decide, rfl,
    (connect_addchain_once c7State c7Env ⟨4902, "Unrecognized chain ID"⟩ "0x1234567890abcdef"
      rfl rfl (by decide) rfl rfl rfl rfl).2.1,
    (connect_addchain_once c7State c7Env ⟨4902, "Unrecognized chain ID"⟩ "0x1234567890abcdef"
      rfl rfl (by decide) rfl rfl rfl rfl).2.2⟩

/-- C7 counterexample: a run satisfying every hypothesis of the claim
(wrong initial chain, switch failing with code 4902, add acknowledged,
connect completing successfully with the success notification and the
stored address) in which the wallet's active chain when the flow ends is
still chain 1: the client issues the add request but never verifies the
resulting chain, so the claimed postcondition on the active chain does
not hold. -/
theorem connect_chain_not_ensured_counterexample :
    (connectWallet c7State c7Env).1.walletAddress = some "0x1234567890abcdef"
    ∧ countAddChain (connectWallet c7State c7Env).2 = 1
    ∧ Effect.notif ("Wallet connected: " ++ strTake "0x1234567890abcdef" 6 ++ "..."
        ++ strTakeRight "0x1234567890abcdef" 4) NType.success ∈ (connectWallet c7State c7Env).2
    ∧ ¬ c7Env.chainAfter = 11155111 := by
  refine ⟨?_, ?_, ?_, ?_⟩ <;> decide

end ImageGen
